import Mathlib

/-!
Shallow embedding of `src/bumpversion/configloader.py`.

Conventions of the embedding:
* Python `int` is `Int`; optional fields are `Option _`.
* A Python function that can raise is embedded as `Except PyErr _`, where
  `PyErr` records the class of the exception raised.
* `Release` (a `tuple` subclass of non-negative-intended ints) is `List Int`.
* Python's three-way helper `_compare` returns -1/0/1; we use `Ordering`
  (`.lt`/`.eq`/`.gt`).
* NamedTuple comparison (`==`, `>`, `<` on the field tuple) is embedded as a
  lexicographic chain over the fields: Python's `==` never raises on these
  field types, and `>`/`<` walk to the first field pair that is not `==` and
  apply the field's own comparison there, which for the field types appearing
  here either decides the order or raises; the chain returns that first
  non-equal field's outcome (`Ordering`) or the exception it raises.
* `Subrelease.__gt__` is recursive at the Python level
  (`return other > self`); it is embedded with explicit fuel, running out of
  fuel standing for Python's `RecursionError`.
-/

namespace Bumpversion

/-- Classes of Python exceptions that the embedded code can raise. -/
inductive PyErr where
  | typeError
  | attributeError
  | recursionError
  | valueError
  | indexError
deriving DecidableEq, Repr

/-- Three-way comparison of Python ints (`_compare` returns -1/0/1). -/
def cmpInt (a b : Int) : Ordering :=
  if a < b then .lt else if b < a then .gt else .eq

/-- Python tuple comparison on int tuples: lexicographic, shorter tuple first
on a tie.  Used for `Release` values (tuples of ints), where it is total. -/
def cmpList : List Int → List Int → Ordering
  | [], [] => .eq
  | [], _ :: _ => .lt
  | _ :: _, [] => .gt
  | a :: as, b :: bs =>
    match cmpInt a b with
    | .eq => cmpList as bs
    | o => o

/-- `is_pos_int` from the source: `isinstance(n, int) and n >= 0` (all our
embedded values are ints, so only the bound remains). -/
def is_pos_int (n : Int) : Bool := 0 ≤ n

/-- `SubreleaseType`: the `StrEnum` with members ALPHA "a", BETA "b",
RELEASE_CANDIDATE "rc", POST "post", in declaration order. -/
inductive SubreleaseType where
  | alpha
  | beta
  | release_candidate
  | post
deriving DecidableEq, Repr, Fintype

/-- `SubreleaseType.order`: `list(SubreleaseType).index(obj)` for a value that
converts to a member (its declaration index), and `2.5` for any value that
does not (`except ValueError: return 2.5`).  An input that is not a member is
embedded as `none`.  The codomain is ℚ because the unrecognized sentinel is
the non-integer 2.5. -/
def SubreleaseType.order : Option SubreleaseType → ℚ
  | some .alpha => 0
  | some .beta => 1
  | some .release_candidate => 2
  | some .post => 3
  | none => 5 / 2

/-- `SubreleaseType.__lt__`: `SubreleaseType.order(self) < SubreleaseType.order(other)`. -/
def SubreleaseType.ltOp (a b : Option SubreleaseType) : Prop :=
  SubreleaseType.order a < SubreleaseType.order b

instance (a b : Option SubreleaseType) : Decidable (SubreleaseType.ltOp a b) :=
  inferInstanceAs (Decidable (SubreleaseType.order a < SubreleaseType.order b))

/-- `SubreleaseType.is_pre`: `self != SubreleaseType.POST`. -/
def SubreleaseType.is_pre (t : SubreleaseType) : Bool :=
  t ≠ SubreleaseType.post

/-- `Subrelease`: NamedTuple of a `SubreleaseType` and an int number. -/
structure Subrelease where
  type : SubreleaseType
  number : Int
deriving DecidableEq, Repr

/-- `Subrelease.validate`: raises ValueError unless the number is a
non-negative int. -/
def Subrelease.validate (s : Subrelease) : Except PyErr Unit :=
  if is_pos_int s.number then .ok () else .error .valueError

/-- `Subrelease.__gt__(self, other)` embedded with fuel.

Source:
```
if other is None:
    return other.is_pre()          # attribute access on None: AttributeError
elif isinstance(other, Subrelease):
    return other > self            # re-enters __gt__ with swapped operands
else:
    return NotImplemented
```
`other` is `none` (Python `None`) or `some` a `Subrelease`.  Fuel 0 stands
for the interpreter's recursion limit (`RecursionError`). -/
def subreleaseGt (fuel : Nat) (self : Subrelease) (other : Option Subrelease) :
    Except PyErr Bool :=
  match fuel with
  | 0 => .error .recursionError
  | fuel + 1 =>
    match other with
    | none => .error .attributeError
    | some o => subreleaseGt fuel o (some self)

/-- `Release.validate`: at least one part, every part a non-negative int. -/
def Release.validate (r : List Int) : Except PyErr Unit :=
  if r.length < 1 then .error .valueError
  else if r.all (fun n => is_pos_int n) then .ok () else .error .valueError

/-- `Release.bump(index, step)`:
```
if index < len(self):
    return self.mutate(index, self[index] + step)
elif step > 0:
    parts = list(self)
    while len(parts) < index:
        parts.append(0)
    parts.append(step)
    return Release(parts)
else:
    raise ValueError("Nonexistent part cannot be decremented")
``` -/
def Release.bump (r : List Int) (index : Nat) (step : Int) :
    Except PyErr (List Int) :=
  if index < r.length then .ok (r.set index (r.getD index 0 + step))
  else if 0 < step then .ok (r ++ List.replicate (index - r.length) 0 ++ [step])
  else .error .valueError

/-- `FinalVersion`: NamedTuple `(epoch: Optional[int], release: Release)`. -/
structure FinalVersion where
  epoch : Option Int
  release : List Int
deriving DecidableEq, Repr

/-- `FinalVersion.validate`: epoch (when present) must be a non-negative int,
then the release is validated. -/
def FinalVersion.validate (v : FinalVersion) : Except PyErr Unit := do
  match v.epoch with
  | some e => if is_pos_int e then pure () else throw .valueError
  | none => pure ()
  Release.validate v.release

/-- `FinalVersion._comparable`: fill a missing epoch with 0. -/
def FinalVersion.comparable (v : FinalVersion) : FinalVersion :=
  match v.epoch with
  | none => { v with epoch := some 0 }
  | some _ => v

/-- `PublicVersion`: NamedTuple
`(epoch: Optional[int], release: Release, subrelease: Optional[Subrelease], dev: Optional[int])`. -/
structure PublicVersion where
  epoch : Option Int
  release : List Int
  subrelease : Option Subrelease
  dev : Option Int
deriving DecidableEq, Repr

/-- `PublicVersion.final`: `FinalVersion(self.epoch, self.release)`. -/
def PublicVersion.final (v : PublicVersion) : FinalVersion :=
  ⟨v.epoch, v.release⟩

/-- `PublicVersion.validate`:
```
self.final().validate()
self.subrelease.validate()    # attribute access on None when subrelease is absent
if self.dev is not None and not is_pos_int(self.dev): raise ValueError(...)
```
Note the second line is unconditional: when `subrelease` is `None`, Python
raises `AttributeError` (`NoneType` has no `validate`). -/
def PublicVersion.validate (v : PublicVersion) : Except PyErr Unit := do
  (PublicVersion.final v).validate
  match v.subrelease with
  | none => throw .attributeError
  | some s => s.validate
  match v.dev with
  | some d => if is_pos_int d then pure () else throw .valueError
  | none => pure ()

/-- `PublicVersion._comparable`: fill a missing epoch with 0 and a missing dev
with the sentinel -1. -/
def PublicVersion.comparable (v : PublicVersion) : PublicVersion :=
  let v := match v.epoch with
    | none => { v with epoch := some 0 }
    | some _ => v
  match v.dev with
  | none => { v with dev := some (-1) }
  | some _ => v

/-- `Version`: NamedTuple adding `local: Optional[str]` (field renamed to
`localLabel` here because `local` is a Lean keyword). -/
structure Version where
  epoch : Option Int
  release : List Int
  subrelease : Option Subrelease
  dev : Option Int
  localLabel : Option String
deriving DecidableEq, Repr

/-- `Version.public`: `PublicVersion(self.epoch, self.release, self.subrelease)`
— only three arguments are passed, so the `dev` field of the result takes its
NamedTuple default `None`. -/
def Version.public (v : Version) : PublicVersion :=
  ⟨v.epoch, v.release, v.subrelease, none⟩

/-- Characters allowed in a local label: `ascii_letters + digits + "."`. -/
def localCharOk (c : Char) : Bool := c.isAlpha || c.isDigit || c = '.'

/-- `Version.validate`:
```
self.public().validate()
if self.local is None: return
if not local_chars.issuperset(self.local): raise ValueError(...)
if "." in (self.local[0], self.local[-1]): raise ValueError(...)
```
`self.local[0]` on an empty string raises `IndexError`. -/
def Version.validate (v : Version) : Except PyErr Unit := do
  (Version.public v).validate
  match v.localLabel with
  | none => pure ()
  | some l =>
    if l.toList.all localCharOk then
      match l.toList with
      | [] => throw .indexError
      | c :: rest =>
        if c = '.' ∨ (c :: rest).getLast (by simp) = '.' then throw .valueError
        else pure ()
    else throw .valueError

/-! ### String rendering

Python's `str(n)` on an int and `".".join`/`"!".join` are embedded over
`List Char`; `natChars` is decimal rendering of a natural number. -/

/-- The decimal digit character for `d < 10` (`'*'` out of range, unused). -/
def digitChar (d : Nat) : Char :=
  match d with
  | 0 => '0' | 1 => '1' | 2 => '2' | 3 => '3' | 4 => '4'
  | 5 => '5' | 6 => '6' | 7 => '7' | 8 => '8' | 9 => '9'
  | _ => '*'

/-- Decimal rendering of a natural number, most significant digit first. -/
def natChars (n : Nat) : List Char :=
  if _h : n < 10 then [digitChar n]
  else natChars (n / 10) ++ [digitChar (n % 10)]
decreasing_by
  exact Nat.div_lt_self (by omega) (by omega)

/-- Python `str` of an int (sign, then decimal digits). -/
def intChars (n : Int) : List Char :=
  if n < 0 then '-' :: natChars n.natAbs else natChars n.toNat

/-- `sep.join` on rendered segments. -/
def joinChars (sep : Char) : List (List Char) → List Char
  | [] => []
  | [x] => x
  | x :: xs => x ++ sep :: joinChars sep xs

/-- `Release.__str__`: `".".join(str(n) for n in self)`. -/
def Release.str (r : List Int) : List Char :=
  joinChars '.' (r.map intChars)

/-- `FinalVersion.__str__`: segments are the epoch (only when present) and the
release rendering, joined with `"!"`. -/
def FinalVersion.str (v : FinalVersion) : List Char :=
  match v.epoch with
  | none => Release.str v.release
  | some e => intChars e ++ '!' :: Release.str v.release

/-! ### Comparison

`_compare(first, second)` evaluates `==`, then `>`, then `<` on the operand
tuples and returns 0, 1 or -1; on these types the first field pair that is not
`==` decides the result or raises.  Field comparators below return `.ok .eq`
exactly when the Python fields are `==`. -/

/-- Comparison of two optional-int fields as Python performs it inside tuple
comparison: `None == None` (equal), int vs int (decided), `None` vs int in
either order raises `TypeError`. -/
def pyCmpOptInt : Option Int → Option Int → Except PyErr Ordering
  | none, none => .ok .eq
  | some a, some b => .ok (cmpInt a b)
  | _, _ => .error .typeError

/-- Comparison of two optional-`Subrelease` fields as Python performs it:
equal values compare equal; two distinct present values enter
`Subrelease.__gt__`'s unbounded recursion (`RecursionError`); a present value
against `None` (either order) reaches `None.is_pre()` resp.
`Subrelease.__gt__(self, None)` and raises `AttributeError`. -/
def pyCmpOptSub : Option Subrelease → Option Subrelease → Except PyErr Ordering
  | none, none => .ok .eq
  | some s, some t => if s = t then .ok .eq else .error .recursionError
  | _, _ => .error .attributeError

/-- `_compare` on two `FinalVersion` operands: field chain epoch, release. -/
def primCompareFV (a b : FinalVersion) : Except PyErr Ordering :=
  match pyCmpOptInt a.epoch b.epoch with
  | .ok .eq => .ok (cmpList a.release b.release)
  | r => r

/-- `_compare` on two `PublicVersion` operands: field chain epoch, release,
subrelease, dev. -/
def primComparePV (a b : PublicVersion) : Except PyErr Ordering :=
  match pyCmpOptInt a.epoch b.epoch with
  | .ok .eq =>
    match cmpList a.release b.release with
    | .eq =>
      match pyCmpOptSub a.subrelease b.subrelease with
      | .ok .eq =>
        match pyCmpOptInt a.dev b.dev with
        | .ok .eq => .ok .eq
        | r => r
      | r => r
    | o => .ok o
  | r => r

/-- `compare(first, second)`:
```
try:
    return _compare(first, second)
except TypeError as e:
    try:
        first = first._comparable()
        second = second._comparable()
    except AttributeError:
        raise e
    return _compare(first, second)
```
Generic over the primitive comparison `prim` and the optional `_comparable`
method (`none` when the operands' type has no `_comparable`, in which case the
original `TypeError` is re-raised).  Only `TypeError` is caught; every other
exception propagates. -/
def compareG (prim : α → α → Except PyErr Ordering) (comparable : Option (α → α))
    (a b : α) : Except PyErr Ordering :=
  match prim a b with
  | .ok o => .ok o
  | .error .typeError =>
    match comparable with
    | none => .error .typeError
    | some f => prim (f a) (f b)
  | .error e => .error e

/-- `compare` on two `FinalVersion` values. -/
def compareFV (a b : FinalVersion) : Except PyErr Ordering :=
  compareG primCompareFV (some FinalVersion.comparable) a b

/-- `compare` on two `PublicVersion` values. -/
def comparePV (a b : PublicVersion) : Except PyErr Ordering :=
  compareG primComparePV (some PublicVersion.comparable) a b

/-! ### `Version.parse` raw material

`VERSION_PATTERN` is the exact pattern string from the source (a raw
triple-quoted string compiled with `re.VERBOSE`); `countChar` counts
occurrences of a character and `scanGroups` extracts the `(?P<name>` group
names the pattern defines. -/

/-- The source's `VERSION_PATTERN` string, verbatim. -/
def VERSION_PATTERN : String :=
  "\n    (?:\n        (?:(?P<epoch>[0-9]+)!)?            # epoch\n        (?P<release>[0-9]+(?:\\.[0-9]+)*)   # release segment\n        (\\.\n            (?P<sub_type>a|b|rc|post)      # subrelease type\n            (?P<sub_number>[0-9]+)         # subrelease number\n        )?\n        (\\.dev(?P<dev>[0-9]+)?             # dev number\n    )\n    (?:\\+(?P<local>[a-zA-Z0-9]*))?         # local version\n"

/-- Number of occurrences of a character in a string. -/
def countChar (c : Char) (s : String) : Nat := s.data.count c

/-- Names of the named capture groups `(?P<name>` occurring in a pattern,
in order of occurrence.  The second argument accumulates the characters of a
name currently being read (reversed), `none` outside a name. -/
def scanGroups : List Char → Option (List Char) → List String
  | [], _ => []
  | c :: rest, some acc =>
    if c = '>' then String.mk acc.reverse :: scanGroups rest none
    else scanGroups rest (some (c :: acc))
  | '?' :: 'P' :: '<' :: rest, none => scanGroups rest (some [])
  | _ :: rest, none => scanGroups rest none

/-! ### Spec-side definition for the subrelease-type precedence claim -/

/-- The precedence chain exactly as the specification words it:
alpha, then beta, then release-candidate, then anything unrecognized, then
post.  (`none` stands for an unrecognized value, as in
`SubreleaseType.order`.) -/
def specPrecedenceRank : Option SubreleaseType → Nat
  | some .alpha => 0
  | some .beta => 1
  | some .release_candidate => 2
  | none => 3
  | some .post => 4



/-! ## Helper lemmas -/

theorem cmpInt_self (a : Int) : cmpInt a a = .eq := by
  simp [cmpInt]

theorem cmpList_self (r : List Int) : cmpList r r = .eq := by
  induction r with
  | nil => rfl
  | cons a as ih => simp [cmpList, cmpInt_self, ih]

theorem digitChar_ne_bang (d : Nat) : digitChar d ≠ '!' := by
  unfold digitChar
  split <;> decide

theorem natChars_ne_bang (n : Nat) : ∀ c ∈ natChars n, c ≠ '!' := by
  induction n using natChars.induct with
  | case1 n h =>
    rw [natChars]
    simp [h]
    exact digitChar_ne_bang n
  | case2 n h ih =>
    rw [natChars]
    simp [h]
    rintro c (hc | rfl)
    · exact ih c hc
    · exact digitChar_ne_bang _

theorem intChars_no_bang (n : Int) : '!' ∉ intChars n := by
  intro hmem
  unfold intChars at hmem
  split at hmem
  · rcases List.mem_cons.mp hmem with h | h
    · exact absurd h (by decide)
    · exact natChars_ne_bang _ _ h rfl
  · exact natChars_ne_bang _ _ hmem rfl

theorem mem_joinChars {c sep : Char} {ls : List (List Char)}
    (hc : c ∈ joinChars sep ls) : c = sep ∨ ∃ x ∈ ls, c ∈ x := by
  induction ls with
  | nil => simp [joinChars] at hc
  | cons x xs ih =>
    cases xs with
    | nil =>
      exact .inr ⟨x, by simp, hc⟩
    | cons y ys =>
      rcases List.mem_append.mp hc with h | h
      · exact .inr ⟨x, by simp, h⟩
      · rcases List.mem_cons.mp h with rfl | h
        · exact .inl rfl
        · rcases ih h with h | ⟨z, hz, hcz⟩
          · exact .inl h
          · exact .inr ⟨z, by simp [List.mem_cons.mp hz], hcz⟩

theorem release_str_no_bang (r : List Int) : '!' ∉ Release.str r := by
  intro hmem
  rcases mem_joinChars hmem with h | ⟨x, hx, hcx⟩
  · exact absurd h (by decide)
  · rcases List.mem_map.mp hx with ⟨n, _, rfl⟩
    exact intChars_no_bang n hcx

/-! ## Claim theorems -/

set_option maxRecDepth 4000

/-- C1: the claim says `Version.parse("1.0.0a1")` yields release `(1,0,0)`
with subrelease `(alpha, 1)` and round-trips.  The code cannot do this:
`VERSION_PATTERN` contains twelve `(` but only eleven `)`, so `re.compile`
on it fails (unterminated subpattern) when the module is imported, and the
group names the pattern defines are `sub_type`/`sub_number` while
`Version.parse` looks up `subrelease_type`/`subrelease_number`, so a
subrelease could never be produced even if the pattern compiled. -/
theorem version_pattern_ill_formed :
    countChar '(' VERSION_PATTERN = 12
    ∧ countChar ')' VERSION_PATTERN = 11
    ∧ scanGroups VERSION_PATTERN.data none =
        ["epoch", "release", "sub_type", "sub_number", "dev", "local"]
    ∧ "subrelease_type" ∉ scanGroups VERSION_PATTERN.data none :=
  ⟨by decide, by decide, by decide, by decide⟩

/-- C2: the claim says `compare(PublicVersion(release=(1,0), dev=None),
PublicVersion(release=(1,0), dev=3))` yields the first strictly greater.
Evaluating the code: the direct comparison raises `TypeError` (None vs 3),
`_comparable` fills the missing dev with -1, and -1 < 3, so `compare`
returns -1 — the first operand is strictly LESS than the second. -/
theorem compare_no_dev_vs_dev :
    comparePV ⟨none, [1, 0], none, none⟩ ⟨none, [1, 0], none, some 3⟩ = .ok .lt :=
  rfl

/-- C3: the claim says comparing two `Subrelease` values terminates and is
decided by type precedence then number.  In the code `Subrelease.__gt__`
executes `return other > self` when the other operand is a `Subrelease`,
which re-enters `__gt__` with swapped operands: at every recursion depth
(fuel) the call has not produced a value, i.e. Python raises
`RecursionError`; type precedence and number are never consulted. -/
theorem subrelease_gt_diverges :
    ∀ (fuel : Nat) (a b : Subrelease),
      subreleaseGt fuel a (some b) = .error .recursionError := by
  intro fuel
  induction fuel with
  | zero => intro a b; rfl
  | succ n ih => intro a b; exact ih b a

/-- C4: the claim says comparing a present `Subrelease` against `None`
succeeds (post is greater than None, pre-release types are less).  In the
code the `other is None` branch of `__gt__` executes `other.is_pre()` —
an attribute access on `None` — so the comparison raises `AttributeError`
for every subrelease, of every type. -/
theorem subrelease_vs_none_attribute_error :
    ∀ (fuel : Nat) (s : Subrelease),
      subreleaseGt (fuel + 1) s none = .error .attributeError :=
  fun _ _ => rfl

/-- C5 counterexample: `Release((1,)).bump(0, -2)` returns `(-1,)` — a
negative component — without raising, so `bump` does not enforce the
non-negativity invariant on the in-bounds branch. -/
theorem release_bump_no_nonneg_check :
    Release.bump [1] 0 (-2) = .ok [-1] ∧ (-1 : Int) < 0 :=
  ⟨rfl, by decide⟩

/-- C5 (amended): if `i < length r`, `bump` returns `r` with `step` added at
position `i` and every other position unchanged, with NO non-negativity
check (the sum may be negative); if `i ≥ length r` and `step > 0`, it
returns `r` extended with zeros up to position `i` and `step` at position
`i`; if `i ≥ length r` and `step ≤ 0`, it raises `ValueError`. -/
theorem release_bump_characterization (r : List Int) (i : Nat) (step : Int) :
    (i < r.length →
      ∃ out, Release.bump r i step = .ok out ∧ out.length = r.length ∧
        out.getD i 0 = r.getD i 0 + step ∧
        ∀ j, j ≠ i → out.getD j 0 = r.getD j 0)
    ∧ (r.length ≤ i → 0 < step →
      ∃ out, Release.bump r i step = .ok out ∧ out.length = i + 1 ∧
        (∀ j, j < r.length → out.getD j 0 = r.getD j 0) ∧
        (∀ j, r.length ≤ j → j < i → out.getD j 0 = 0) ∧
        out.getD i 0 = step)
    ∧ (r.length ≤ i → step ≤ 0 →
        Release.bump r i step = .error .valueError) := by
  refine ⟨?_, ?_, ?_⟩
  · intro h
    refine ⟨r.set i (r.getD i 0 + step), by simp [Release.bump, h], by simp, ?_, ?_⟩
    · simp [List.getD_eq_getElem?_getD, List.getElem?_set, h]
    · intro j hj
      simp [List.getD_eq_getElem?_getD, List.getElem?_set, Ne.symm hj]
  · intro h hs
    refine ⟨r ++ List.replicate (i - r.length) 0 ++ [step],
      by simp [Release.bump, Nat.not_lt.mpr h, hs], ?_, ?_, ?_, ?_⟩
    · simp
      omega
    · intro j hj
      simp [List.getD_eq_getElem?_getD, List.getElem?_append, hj]
    · intro j h1 h2
      rw [List.append_assoc, List.getD_eq_getElem?_getD,
        List.getElem?_append_right h1]
      have hlt : j - r.length < i - r.length := by omega
      simp [List.getElem?_append, hlt]
    · have hi : i = r.length + (i - r.length) := by omega
      rw [hi, List.append_assoc, List.getD_eq_getElem?_getD,
        List.getElem?_append_right (by omega)]
      simp
  · intro h hs
    simp [Release.bump, Nat.not_lt.mpr h, not_lt.mpr hs]

/-- Witness for `release_bump_characterization`: the three branches at the
concrete inputs `([1,2], 1, +1)`, `([1], 3, +2)` and `([1], 3, 0)`. -/
theorem release_bump_characterization_witness :
    (∃ out, Release.bump [1, 2] 1 1 = .ok out ∧
      out.length = ([1, 2] : List Int).length ∧
      out.getD 1 0 = ([1, 2] : List Int).getD 1 0 + 1 ∧
      ∀ j, j ≠ 1 → out.getD j 0 = ([1, 2] : List Int).getD j 0)
    ∧ (∃ out, Release.bump [1] 3 2 = .ok out ∧ out.length = 3 + 1 ∧
      (∀ j, j < ([1] : List Int).length → out.getD j 0 = ([1] : List Int).getD j 0) ∧
      (∀ j, ([1] : List Int).length ≤ j → j < 3 → out.getD j 0 = 0) ∧
      out.getD 3 0 = 2)
    ∧ Release.bump [1] 3 0 = .error .valueError :=
  ⟨(release_bump_characterization [1, 2] 1 1).1 (by decide),
   (release_bump_characterization [1] 3 2).2.1 (by decide) (by decide),
   (release_bump_characterization [1] 3 0).2.2 (by decide) (by decide)⟩

/-- C6: the claim says `validate` succeeds on every value satisfying the
invariants, including values with absent optional fields.  In the code
`PublicVersion.validate` executes `self.subrelease.validate()`
unconditionally, so a perfectly valid `Version` with no subrelease —
`Version(None, (1,0,0), None, None, None)` — raises `AttributeError`
(attribute access on `None`), even though its release and final segments
validate cleanly on their own. -/
theorem validate_crashes_on_valid_version :
    Version.validate ⟨none, [1, 0, 0], none, none, none⟩ = .error .attributeError
    ∧ Release.validate [1, 0, 0] = .ok ()
    ∧ FinalVersion.validate ⟨none, [1, 0, 0]⟩ = .ok () :=
  ⟨rfl, rfl, rfl⟩

/-- C7: the precedence used to compare subrelease types — the code's
`SubreleaseType.order` values — realizes exactly the chain
alpha < beta < release-candidate < (any unrecognized value) < post:
`a < b` under the code's ordering iff the rank in the spec's chain
(`specPrecedenceRank`) increases. -/
theorem subrelease_type_precedence :
    ∀ a b : Option SubreleaseType,
      SubreleaseType.ltOp a b ↔ specPrecedenceRank a < specPrecedenceRank b := by
  rintro (_ | (_|_|_|_)) (_ | (_|_|_|_)) <;>
    simp [SubreleaseType.ltOp, SubreleaseType.order, specPrecedenceRank] <;> norm_num

/-- C8: `compare` first compares the operands directly; if the direct
comparison succeeds its result is returned untouched; if it raises
`TypeError`, both operands are mapped through `_comparable` and the
comparison is retried exactly once, that retry's outcome (value or error)
being final; and when the operands have no `_comparable` at all, the
original `TypeError` is re-raised instead of returning a result. -/
theorem compare_direct_then_retry_once (a b : PublicVersion) :
    (∀ o, primComparePV a b = .ok o → comparePV a b = .ok o)
    ∧ (primComparePV a b = .error .typeError →
        comparePV a b =
          primComparePV (PublicVersion.comparable a) (PublicVersion.comparable b))
    ∧ (∀ e, primComparePV a b = .error .typeError →
        primComparePV (PublicVersion.comparable a) (PublicVersion.comparable b) =
          .error e →
        comparePV a b = .error e)
    ∧ (primComparePV a b = .error .typeError →
        compareG primComparePV none a b = .error .typeError) := by
  refine ⟨?_, ?_, ?_, ?_⟩
  · intro o h
    simp [comparePV, compareG, h]
  · intro h
    simp [comparePV, compareG, h]
  · intro e h1 h2
    simp [comparePV, compareG, h1, h2]
  · intro h
    simp [compareG, h]

/-- Witness for `compare_direct_then_retry_once`: the four branches at
concrete inputs — a directly comparable pair, a pair repaired by the
`_comparable` retry, a pair whose retry still raises, and the
no-`_comparable` case. -/
theorem compare_direct_then_retry_once_witness :
    comparePV ⟨none, [1, 0], none, none⟩ ⟨none, [1, 0], none, none⟩ = .ok .eq
    ∧ comparePV ⟨none, [1, 0], none, none⟩ ⟨none, [1, 0], none, some 3⟩ = .ok .lt
    ∧ comparePV ⟨none, [1], some ⟨.alpha, 1⟩, none⟩
        ⟨some 0, [1], some ⟨.beta, 2⟩, none⟩ = .error .recursionError
    ∧ compareG primComparePV none ⟨none, [1, 0], none, none⟩
        ⟨none, [1, 0], none, some 3⟩ = .error .typeError :=
  ⟨(compare_direct_then_retry_once ⟨none, [1, 0], none, none⟩
      ⟨none, [1, 0], none, none⟩).1 .eq rfl,
   ((compare_direct_then_retry_once ⟨none, [1, 0], none, none⟩
      ⟨none, [1, 0], none, some 3⟩).2.1 rfl).trans rfl,
   (compare_direct_then_retry_once ⟨none, [1], some ⟨.alpha, 1⟩, none⟩
      ⟨some 0, [1], some ⟨.beta, 2⟩, none⟩).2.2.1 .recursionError rfl rfl,
   (compare_direct_then_retry_once ⟨none, [1, 0], none, none⟩
      ⟨none, [1, 0], none, some 3⟩).2.2.2 rfl⟩

/-- C9: for every release `r`, comparing `FinalVersion(None, r)` with
`FinalVersion(0, r)` yields equality (the missing epoch is filled with 0
for the comparison), while the rendering of the absent-epoch value is
exactly the release rendering — it contains no `!` and so no epoch
segment, and differs from the rendering of the same value with epoch 0. -/
theorem epoch_zero_for_compare_not_display (r : List Int) :
    compareFV ⟨none, r⟩ ⟨some 0, r⟩ = .ok .eq
    ∧ FinalVersion.str ⟨none, r⟩ = Release.str r
    ∧ '!' ∉ FinalVersion.str ⟨none, r⟩
    ∧ FinalVersion.str ⟨some 0, r⟩ ≠ FinalVersion.str ⟨none, r⟩ := by
  have hno : '!' ∉ Release.str r := release_str_no_bang r
  refine ⟨?_, rfl, hno, ?_⟩
  · simp [compareFV, compareG, primCompareFV, pyCmpOptInt, FinalVersion.comparable,
      cmpInt_self, cmpList_self]
  · intro hEq
    have hbang : '!' ∈ FinalVersion.str ⟨some 0, r⟩ := by
      simp [FinalVersion.str]
    rw [hEq] at hbang
    exact hno hbang

/-- C10: the claim says `Version.public()` preserves epoch, release,
subrelease AND dev, dropping only the local label.  The code constructs
`PublicVersion(self.epoch, self.release, self.subrelease)` with only three
arguments, so the result's dev field is always `None`, whatever the
source's dev was — the dev value is dropped along with the local label. -/
theorem version_public_drops_dev :
    ∀ v : Version,
      (Version.public v).dev = none
      ∧ (Version.public v).epoch = v.epoch
      ∧ (Version.public v).release = v.release
      ∧ (Version.public v).subrelease = v.subrelease :=
  fun _ => ⟨rfl, rfl, rfl, rfl⟩

end Bumpversion
